import Mathlib

/-!
# Verification of the gitlab-admin-bot recovery/restore core

Shallow embedding of the recovery/restore workflow core of the
`gitlab-admin-bot` repository, together with proofs of the spec's
testable properties.

Embedded modules:
* `src/monitors/base.py`   — `Status`, `CheckResult`, `BaseMonitor.record_result`
* `src/restore/tester.py`  — `RestoreTestResult`, `RestoreTester.run_restore_test`
* `src/restore/recovery.py`— `RecoveryStep`, `RecoveryState`,
  `RecoveryManager.initiate_recovery`, `_wait_for_action`
* `src/monitors/backup.py` — `BackupMonitor.check`, `_check_local_backup`,
  `_check_borg_backup`, `_check_backup_log`
* `src/utils/ssh.py`       — `SSHClient._get_client`, `_run_command_sync`

Modelling conventions:
* Awaited external effects (cloud SDK calls, remote SSH commands, HTTP
  probes) are resolved by an explicit environment record passed to the
  embedded function; each effect either returns a value or raises,
  modelled with `Except`.
* Python exceptions are the inductive `PyErr`; `pyStr` is Python's
  `str(e)` for the messages the code interpolates into f-strings.
* Wall-clock timestamps are abstract `Int` ticks supplied by the
  environment; only presence/absence of `completed_at` style fields and
  elapsed-seconds arithmetic matter to the claims.
* Log statements and Prometheus metric updates are pure observations in
  the source and are not modelled.
-/

namespace Botlab

/-- Python exceptions, as far as the embedded code distinguishes them. -/
inductive PyErr where
  | keyError (key : String)
  | valueError (msg : String)
  | runtimeError (msg : String)
  | timeoutError (msg : String)
  | fileNotFoundError (msg : String)
  | sshError (msg : String)
  deriving DecidableEq, Repr

/-- Python's `str(e)` for the exceptions above (`str` of a `KeyError`
is the `repr` of the key, i.e. the key wrapped in single quotes). -/
def pyStr : PyErr → String
  | PyErr.keyError k => "\x27" ++ k ++ "\x27"
  | PyErr.valueError m => m
  | PyErr.runtimeError m => m
  | PyErr.timeoutError m => m
  | PyErr.fileNotFoundError m => m
  | PyErr.sshError m => m

/-- An alert handed to `AlertManager.send_alert` (severity, title, message).
The free-form `details` payload is not modelled. -/
structure Alert where
  severity : String
  title : String
  message : String
  deriving DecidableEq, Repr

/-! ## `src/monitors/base.py` -/

/-- `Status` enum of `src/monitors/base.py`. -/
inductive Status where
  | ok
  | warning
  | critical
  | unknown
  deriving DecidableEq, Repr

/-- `CheckResult` of `src/monitors/base.py`; `Details` stands for the
free-form `details` dict (each monitor instantiates it with its own
shape).  The timestamp field is not modelled. -/
structure CheckResult (Details : Type) where
  status : Status
  message : String
  details : Details
  deriving DecidableEq, Repr

/-- The mutable state a `BaseMonitor` keeps: `_last_result` and
`_consecutive_failures`. -/
structure MonitorState (Details : Type) where
  last_result : Option (CheckResult Details)
  consecutive_failures : Nat
  deriving DecidableEq, Repr

/-- The state of a freshly constructed monitor (`BaseMonitor.__init__`). -/
def MonitorState.init (Details : Type) : MonitorState Details :=
  { last_result := none, consecutive_failures := 0 }

/-- `BaseMonitor.record_result` (src/monitors/base.py:73-91): stores the
result and updates the consecutive-failure counter. -/
def record_result {Details : Type} (s : MonitorState Details)
    (result : CheckResult Details) : MonitorState Details :=
  { last_result := some result
    consecutive_failures :=
      if result.status = Status.critical then s.consecutive_failures + 1 else 0 }

/-- Length of the trailing run of CRITICAL results in a sequence, written
from the claim's words (for comparison with the code's counter). -/
def trailingCriticalRun {Details : Type} (rs : List (CheckResult Details)) : Nat :=
  (rs.reverse.takeWhile (fun r => r.status == Status.critical)).length

/-! ## `src/restore/tester.py` -/

/-- The slice of a Hetzner server object the tester reads
(`server.id` and `server.public_net.ipv4.ip`). -/
structure Server where
  id : Int
  ip : String
  deriving DecidableEq, Repr

/-- `RestoreTestResult` (src/restore/tester.py:26-42).  The start/end
timestamps only feed `duration_minutes` and the report text, so they are
not modelled. -/
structure RestoreTestResult where
  success : Bool
  server_id : Option Int
  steps_completed : List String
  errors : List String
  verification_results : List (String × Bool)
  deriving DecidableEq, Repr

/-- Outcomes of the awaited sub-operations of `run_restore_test`:
`_provision_test_server`, `_install_gitlab`, `_restore_backup`,
`_verify_restore` and the `hcloud.servers.delete` cleanup call.  Each
either returns or raises (error payload = `str(e)`).  The verification
dict is an insertion-ordered association list. -/
structure RestoreEnv where
  provision : Except String Server
  install : Except String Unit
  restore : Except String Unit
  verify : Except String (List (String × Bool))
  destroy : Except String Unit
  deriving Repr

/-- `RestoreTester.run_restore_test` (src/restore/tester.py:61-131):
the try/except/finally orchestration.  The `_send_report` call only
emits an alert and is not needed by the claims. -/
def run_restore_test (env : RestoreEnv) : RestoreTestResult :=
  let r0 : RestoreTestResult :=
    { success := false, server_id := none, steps_completed := []
      errors := [], verification_results := [] }
  -- try block; `server` is the local that stays None if provisioning raises
  let body : RestoreTestResult × Option Server :=
    match env.provision with
    | Except.error e => ({ r0 with errors := r0.errors ++ [e] }, none)
    | Except.ok srv =>
      let rA := { r0 with
        server_id := some srv.id
        steps_completed := r0.steps_completed ++ ["server_provisioned"] }
      match env.install with
      | Except.error e => ({ rA with errors := rA.errors ++ [e] }, some srv)
      | Except.ok _ =>
        let rB := { rA with steps_completed := rA.steps_completed ++ ["gitlab_installed"] }
        match env.restore with
        | Except.error e => ({ rB with errors := rB.errors ++ [e] }, some srv)
        | Except.ok _ =>
          let rC := { rB with steps_completed := rB.steps_completed ++ ["backup_restored"] }
          match env.verify with
          | Except.error e => ({ rC with errors := rC.errors ++ [e] }, some srv)
          | Except.ok verification =>
            let rD := { rC with
              verification_results := verification
              steps_completed := rC.steps_completed ++ ["verification_completed"] }
            ({ rD with success := verification.all (fun p => p.2) }, some srv)
  -- finally block: destroy the server when one was provisioned
  let r1 := body.1
  match body.2 with
  | none => r1
  | some _ =>
    match env.destroy with
    | Except.ok _ =>
      { r1 with steps_completed := r1.steps_completed ++ ["server_destroyed"] }
    | Except.error e =>
      { r1 with errors := r1.errors ++ ["Cleanup failed: " ++ e] }

/-! ## `src/restore/recovery.py` -/

/-- `RecoveryStep` enum (src/restore/recovery.py:28-38), in its fixed
declaration order. -/
inductive RecoveryStep where
  | provision_server
  | attach_volumes
  | install_gitlab
  | restore_config
  | restore_backup
  | reconfigure
  | verify
  | update_dns
  deriving DecidableEq, Repr

/-- The `str` value of each `RecoveryStep` member. -/
def RecoveryStep.value : RecoveryStep → String
  | RecoveryStep.provision_server => "provision_server"
  | RecoveryStep.attach_volumes => "attach_volumes"
  | RecoveryStep.install_gitlab => "install_gitlab"
  | RecoveryStep.restore_config => "restore_config"
  | RecoveryStep.restore_backup => "restore_backup"
  | RecoveryStep.reconfigure => "reconfigure"
  | RecoveryStep.verify => "verify"
  | RecoveryStep.update_dns => "update_dns"

/-- The fixed total order of recovery steps executed by
`initiate_recovery`. -/
def recoveryOrder : List RecoveryStep :=
  [RecoveryStep.provision_server, RecoveryStep.attach_volumes,
   RecoveryStep.install_gitlab, RecoveryStep.restore_config,
   RecoveryStep.restore_backup, RecoveryStep.reconfigure,
   RecoveryStep.verify, RecoveryStep.update_dns]

/-- `RecoveryState` (src/restore/recovery.py:41-61).  Timestamps are
abstract integer ticks. -/
structure RecoveryState where
  started_at : Int
  completed_at : Option Int
  current_step : Option RecoveryStep
  completed_steps : List RecoveryStep
  failed_step : Option RecoveryStep
  error : Option String
  new_server_id : Option Int
  new_server_ip : Option String
  deriving DecidableEq, Repr

/-- `RecoveryState.is_complete` (src/restore/recovery.py:54-56). -/
def RecoveryState.is_complete (s : RecoveryState) : Bool :=
  s.completed_at.isSome

/-- `RecoveryState()` with all defaults: the state `initiate_recovery`
constructs, started at the given clock tick. -/
def RecoveryState.fresh (clock : Int) : RecoveryState :=
  { started_at := clock, completed_at := none, current_step := none
    completed_steps := [], failed_step := none, error := none
    new_server_id := none, new_server_ip := none }

/-- Outcomes of the awaited effects inside the auto-approved step
sequence of `initiate_recovery`.  Each step body of the source
(`_provision_recovery_server`, `_attach_volumes`, `_install_gitlab`,
`_restore_config`, `_restore_backup`, `_reconfigure_gitlab`,
`_verify_recovery`, and the step-8 DNS `send_alert` call) either
returns or raises (payload = `str(e)`).  `clock` is the tick
`datetime.now()` yields when stamping timestamps. -/
structure RecoveryEnv where
  provision : Except String Server
  attach_volumes : Except String Unit
  install_gitlab : Except String Unit
  restore_config : Except String Unit
  restore_backup : Except String Unit
  reconfigure : Except String Unit
  verify : Except String Unit
  update_dns : Except String Unit
  clock : Int

/-- The body of one recovery step, as resolved by the environment. -/
def stepBody (env : RecoveryEnv) : RecoveryStep → Except String Unit
  | RecoveryStep.provision_server => env.provision.map fun _ => ()
  | RecoveryStep.attach_volumes => env.attach_volumes
  | RecoveryStep.install_gitlab => env.install_gitlab
  | RecoveryStep.restore_config => env.restore_config
  | RecoveryStep.restore_backup => env.restore_backup
  | RecoveryStep.reconfigure => env.reconfigure
  | RecoveryStep.verify => env.verify
  | RecoveryStep.update_dns => env.update_dns

/-- State mutation a successful step performs besides appending itself to
`completed_steps`: provisioning records the new server id/address
(src/restore/recovery.py:136-137). -/
def stepSuccessUpdate (env : RecoveryEnv) (s : RecoveryStep)
    (st : RecoveryState) : RecoveryState :=
  match s, env.provision with
  | RecoveryStep.provision_server, Except.ok srv =>
    { st with new_server_id := some srv.id, new_server_ip := some srv.ip }
  | _, _ => st

/-- Alerts a successful step emits: only step 8 sends the manual-DNS
warning alert (src/restore/recovery.py:172-176). -/
def stepSuccessAlerts (s : RecoveryStep) (st : RecoveryState) : List Alert :=
  match s with
  | RecoveryStep.update_dns =>
    [{ severity := "warning"
       title := "Action Required: Update DNS"
       message := "Update DNS to point to new server IP: "
         ++ st.new_server_ip.getD "None" }]
  | _ => []

/-- The CRITICAL alert sent when a step raises
(src/restore/recovery.py:206-210).  `state.current_step` is the failed
step; its f-string rendering is modelled by the member value. -/
def recoveryFailedAlert (s : RecoveryStep) (e : String) : Alert :=
  { severity := "critical"
    title := "Disaster Recovery FAILED"
    message := "Recovery failed at step: " ++ s.value ++ "\nError: " ++ e }

/-- The INFO alert sent on full completion
(src/restore/recovery.py:182-193).  The duration figure interpolated in
the source message is numeric formatting only and is abstracted. -/
def recoveryCompleteAlert (st : RecoveryState) : Alert :=
  { severity := "info"
    title := "Disaster Recovery Complete"
    message := "Recovery completed successfully.\nNew server IP: "
      ++ st.new_server_ip.getD "None" }

/-- The state after step `s` completed: `current_step` was set to `s`,
the provisioning side effects applied, and `s` appended to
`completed_steps`. -/
def stepAdvance (env : RecoveryEnv) (s : RecoveryStep)
    (st : RecoveryState) : RecoveryState :=
  let st1 := { st with current_step := some s }
  let st2 := stepSuccessUpdate env s st1
  { st2 with completed_steps := st2.completed_steps ++ [s] }

/-- The state after step `s` raised `e`: the failure recorded on the
step that was executing, with the completion stamp set. -/
def stepFail (env : RecoveryEnv) (s : RecoveryStep) (e : String)
    (st : RecoveryState) : RecoveryState :=
  { st with
    current_step := some s
    failed_step := some s
    error := some e
    completed_at := some env.clock }

/-- The step-execution loop of `initiate_recovery`
(src/restore/recovery.py:132-212): run the remaining steps in order;
on the first raise, record `failed_step`/`error`, stamp `completed_at`
and send the failure alert; if all complete, stamp `completed_at` and
send the success alert.  Returns the final state and the alerts sent
by the loop. -/
def runStepsFrom (env : RecoveryEnv) :
    List RecoveryStep → RecoveryState → RecoveryState × List Alert
  | [], st =>
    let stF := { st with completed_at := some env.clock }
    (stF, [recoveryCompleteAlert stF])
  | s :: rest, st =>
    match stepBody env s with
    | Except.error e => (stepFail env s e st, [recoveryFailedAlert s e])
    | Except.ok _ =>
      let r := runStepsFrom env rest (stepAdvance env s st)
      (r.1, stepSuccessAlerts s { st with current_step := some s } ++ r.2)

/-- The guard `self._current_recovery and not
self._current_recovery.is_complete` (src/restore/recovery.py:102). -/
def inFlight : Option RecoveryState → Bool
  | some st => !st.is_complete
  | none => false

/-- The initiation alert (src/restore/recovery.py:115-119). -/
def initiationAlert (reason : String) : Alert :=
  { severity := "critical"
    title := "Disaster Recovery Initiated"
    message := "Recovery procedure started.\nReason: " ++ reason }

/-- The approval-request alert (src/restore/recovery.py:124-128). -/
def approvalAlert : Alert :=
  { severity := "critical"
    title := "Action Required: Approve Recovery"
    message := "Please approve the disaster recovery procedure to continue." }

/-- Outcome of an `initiate_recovery` call: the returned state or the
raised exception, the alerts sent during the call (in order), and the
manager's `_current_recovery` reference afterwards. -/
structure InitiateResult where
  result : Except PyErr RecoveryState
  alerts : List Alert
  current_recovery : Option RecoveryState
  deriving Repr

/-- `RecoveryManager.initiate_recovery` (src/restore/recovery.py:87-212)
as a function of the manager's `_current_recovery` reference, the call
arguments and the effect environment. -/
def initiate_recovery (cur : Option RecoveryState) (reason : String)
    (auto_approve : Bool) (env : RecoveryEnv) : InitiateResult :=
  if inFlight cur then
    { result := Except.error (PyErr.runtimeError "Recovery already in progress")
      alerts := []
      current_recovery := cur }
  else
    let state := RecoveryState.fresh env.clock
    if !auto_approve then
      { result := Except.ok state
        alerts := [initiationAlert reason, approvalAlert]
        current_recovery := some state }
    else
      let r := runStepsFrom env recoveryOrder state
      { result := Except.ok r.1
        alerts := initiationAlert reason :: r.2
        current_recovery := some r.1 }

/-! ### The action-polling protocol (`_wait_for_action`)

`RecoveryManager._wait_for_action` (src/restore/recovery.py:249-270) and
`RestoreTester._wait_for_action` (src/restore/tester.py:168-188) are the
same loop (the recovery variant adds a debug log line).  The poll at
iteration `n` is resolved by `poll n`; wall-clock elapsed is modelled as
5 seconds per completed sleep, i.e. `5 * n` at the `n`-th poll. -/

/-- Status of a polled Hetzner action, with its error detail. -/
inductive ActionPoll where
  | success
  | error (detail : String)
  | running
  deriving DecidableEq, Repr

/-- Result of the wait: normal return (recording how many 5s sleeps were
performed), the action-failed raise, or the timeout raise. -/
inductive WaitOutcome where
  | ok (sleeps : Nat)
  | actionFailed (msg : String)
  | timedOut (msg : String)
  deriving DecidableEq, Repr

/-- One iteration of the `_wait_for_action` loop, at poll index `n`. -/
def waitForActionGo (poll : Nat → ActionPoll) (timeout : Nat) (n : Nat) :
    WaitOutcome :=
  match poll n with
  | ActionPoll.success => WaitOutcome.ok n
  | ActionPoll.error d =>
    WaitOutcome.actionFailed ("Hetzner action failed: " ++ d)
  | ActionPoll.running =>
    if h : 5 * n > timeout then
      WaitOutcome.timedOut ("Action timed out after " ++ toString timeout ++ "s")
    else
      waitForActionGo poll timeout (n + 1)
termination_by timeout + 1 - n
decreasing_by
  simp only [gt_iff_lt, not_lt] at h
  omega

/-- `_wait_for_action(action, timeout)`: poll from iteration 0. -/
def waitForAction (poll : Nat → ActionPoll) (timeout : Nat) : WaitOutcome :=
  waitForActionGo poll timeout 0

/-! ## `src/utils/ssh.py` -/

/-- What `client.exec_command` yields for one remote command: exit
status, stdout and stderr. -/
structure ExecResult where
  exit_status : Int
  stdout : String
  stderr : String
  deriving DecidableEq, Repr

/-- Environment of an `SSHClient` call: whether the configured private
key file exists, whether `paramiko` can connect (a failed connect raises
an SSH-level error, never a `FileNotFoundError`), and the outcome of
each executed command. -/
structure SSHEnv where
  keyFileExists : Bool
  keyPath : String
  connectError : Option String
  exec : String → ExecResult

/-- The connection state an `SSHClient` holds: `self._client` is set and
its transport is active (`_is_connected`). -/
structure SSHState where
  connected : Bool
  deriving DecidableEq, Repr

/-- `SSHClient._get_client` (src/utils/ssh.py:24-48): reuse a live
session, otherwise check the key file and connect. -/
def _get_client (env : SSHEnv) (st : SSHState) : Except PyErr SSHState :=
  if st.connected then
    Except.ok st
  else if !env.keyFileExists then
    Except.error (PyErr.fileNotFoundError ("SSH key not found: " ++ env.keyPath))
  else
    match env.connectError with
    | some m => Except.error (PyErr.sshError m)
    | none => Except.ok { connected := true }

/-- `SSHClient._run_command_sync` (src/utils/ssh.py:84-106): get a
client, execute, wait for the exit status, and return stdout.  A
non-zero exit status is only logged as a warning.  `run_command` merely
moves this call onto the thread pool. -/
def _run_command_sync (env : SSHEnv) (st : SSHState) (command : String) :
    Except PyErr (String × SSHState) :=
  match _get_client env st with
  | Except.error e => Except.error e
  | Except.ok st1 =>
    let res := env.exec command
    -- `if exit_status != 0:` only logs; the return value is stdout either way
    Except.ok (res.stdout, st1)

/-! ## `src/monitors/backup.py` -/

/-!
String primitives are modelled on the underlying character lists (the
byte-position-based core `String` operations do not reduce inside the
kernel, which the concrete-input theorems below rely on). -/

/-- Python `str.strip()`: drop whitespace from both ends. -/
def pyStrip (s : String) : String :=
  String.mk
    (((s.data.dropWhile Char.isWhitespace).reverse.dropWhile
        Char.isWhitespace).reverse)

/-- Python `str.split()` with no argument: split on whitespace runs,
dropping empty fields. -/
def pySplit (s : String) : List String :=
  ((s.data.splitOnP Char.isWhitespace).filter (fun w => w ≠ [])).map String.mk

/-- Python `s.split("\n")`. -/
def pySplitLines (s : String) : List String :=
  (s.data.splitOnP (fun c => c == Char.ofNat 10)).map String.mk

/-- Python `needle in haystack` on strings. -/
def pyContains (haystack needle : String) : Bool :=
  haystack.data.tails.any (fun t => needle.data.isPrefixOf t)

/-- Python `str.lower()` (ASCII case folding suffices here). -/
def pyToLower (s : String) : String :=
  String.mk (s.data.map Char.toLower)

/-- Python `int(s)` restricted to an optional minus sign and decimal
digits (the shapes the monitored commands emit); anything else is the
`ValueError` case, signalled by `none`. -/
def pyToIntAux : List Char → Nat → Option Nat
  | [], acc => some acc
  | c :: cs, acc =>
    if c.isDigit then pyToIntAux cs (acc * 10 + (c.toNat - 48)) else none

/-- Python `int(s)` (see `pyToIntAux`). -/
def pyToInt (s : String) : Option Int :=
  match s.data with
  | [] => none
  | c :: cs =>
    if c = Char.ofNat 45 then
      match cs with
      | [] => none
      | _ => (pyToIntAux cs 0).map (fun n => -(n : Int))
    else
      (pyToIntAux s.data 0).map (fun n => (n : Int))

/-- Round a rational to two decimal places (Python `round(x, 2)`). -/
def round2 (x : Rat) : Rat :=
  (round (x * 100) : Int) / 100

/-- Python `f"{x:.1f}"`: the value rounded to tenths; its decimal
rendering is abstracted to `toString` of the rational. -/
def fmtFloat1 (x : Rat) : String :=
  toString (((round (x * 10) : Int) : Rat) / 10)

/-- Python `repr` of a list of strings, as interpolated by an f-string. -/
def pyReprList (xs : List String) : String :=
  "[" ++ String.intercalate ", " (xs.map (fun s => "\x27" ++ s ++ "\x27")) ++ "]"

/-- The dict `_check_local_backup` returns.  `file_exists` is the dict
key `"exists"`; a key absent from the returned dict is `none`. -/
structure LocalBackup where
  file_exists : Bool
  error : Option String
  filename : Option String
  size_gb : Option Rat
  timestamp : Option Int
  age_hours : Option Rat
  deriving DecidableEq, Repr

/-- The dict `_check_borg_backup` returns (it never returns an
`age_hours` key, which makes the `elif "age_hours" in borg_status`
branch of `check` dead code). -/
structure BorgStatus where
  error : Option String
  archive : Option String
  timestamp : Option String
  accessible : Option Bool
  raw : Option String
  deriving DecidableEq, Repr

/-- The dict `_check_backup_log` returns. -/
structure LogStatus where
  recent_errors : Option (List String)
  error_count : Nat
  deriving DecidableEq, Repr

/-- The `details` map assembled by `BackupMonitor.check`. -/
structure BackupDetails where
  localD : Option LocalBackup
  borgD : Option BorgStatus
  logD : Option LogStatus
  errorD : Option String
  deriving DecidableEq, Repr

/-- The empty `details` dict at the start of `check`. -/
def emptyDetails : BackupDetails :=
  { localD := none, borgD := none, logD := none, errorD := none }

/-- The slice of `BackupSettings` the monitor reads.  `borg_repo` is
configured iff non-empty (Python truthiness);
`max_backup_age_hours: int = Field(default=4)` carries no bounds. -/
structure BackupSettingsModel where
  max_backup_age_hours : Int
  borg_repo : String
  local_backup_path : String
  deriving DecidableEq, Repr

/-- The `ls -lt` command of `_check_local_backup`
(src/monitors/backup.py:122). -/
def lsCommand (path : String) : String :=
  "ls -lt " ++ path ++ "/*_gitlab_backup.tar 2>/dev/null | head -1"

/-- The `stat` command of `_check_local_backup`
(src/monitors/backup.py:139). -/
def statCommand (filename : String) : String :=
  "stat -c %Y " ++ filename

/-- `BackupMonitor._check_local_backup` (src/monitors/backup.py:117-152)
as a function of the remote command results (`ssh`) and the current
wall-clock second (`now`).  Raises propagate to `check`'s handler. -/
def _check_local_backup (ssh : String → Except PyErr String)
    (backup_path : String) (now : Int) : Except PyErr LocalBackup :=
  match ssh (lsCommand backup_path) with
  | Except.error e => Except.error e
  | Except.ok output =>
    if pyStrip output = "" then
      Except.ok { file_exists := false, error := some "No backup files found"
                  filename := none, size_gb := none, timestamp := none
                  age_hours := none }
    else
      let parts := pySplit (pyStrip output)
      if parts.length < 9 then
        Except.ok { file_exists := false
                    error := some ("Cannot parse: " ++ output)
                    filename := none, size_gb := none, timestamp := none
                    age_hours := none }
      else
        let filename := parts.getLastD ""
        match pyToInt (parts.getD 4 "") with
        | none =>
          Except.error (PyErr.valueError
            ("invalid literal for int() with base 10: \x27"
              ++ parts.getD 4 "" ++ "\x27"))
        | some size_bytes =>
          let size_gb : Rat := (size_bytes : Rat) / (1024 ^ 3 : Rat)
          match ssh (statCommand filename) with
          | Except.error e => Except.error e
          | Except.ok mtime_output =>
            match pyToInt (pyStrip mtime_output) with
            | none =>
              Except.error (PyErr.valueError
                ("invalid literal for int() with base 10: \x27"
                  ++ pyStrip mtime_output ++ "\x27"))
            | some mtime =>
              let age_hours : Rat := ((now - mtime : Int) : Rat) / 3600
              Except.ok { file_exists := true
                          error := none
                          filename := some filename
                          size_gb := some (round2 size_gb)
                          timestamp := some mtime
                          age_hours := some (round2 age_hours) }

/-- The `borg list` command of `_check_borg_backup`
(src/monitors/backup.py:158-161). -/
def borgListCommand : String :=
  "source /etc/gitlab-backup.conf && "
    ++ "borg list --last 1 --format \x27{archive} {time}\x27 $BORG_REPO 2>&1"

/-- `BackupMonitor._check_borg_backup` (src/monitors/backup.py:154-183).
It catches its own exceptions and always returns a dict. -/
def _check_borg_backup (ssh : String → Except PyErr String) : BorgStatus :=
  match ssh borgListCommand with
  | Except.error e =>
    { error := some (pyStr e), archive := none, timestamp := none
      accessible := none, raw := none }
  | Except.ok output =>
    if pyContains (pyToLower output) "error"
        || pyContains (pyToLower output) "warning" then
      { error := some (pyStrip output), archive := none, timestamp := none
        accessible := none, raw := none }
    else
      let parts := pySplit (pyStrip output)
      if parts.length ≥ 2 then
        { error := none
          archive := some (parts.getD 0 "")
          timestamp := some (String.intercalate " " (parts.drop 1))
          accessible := some true
          raw := none }
      else
        { error := none, archive := none, timestamp := none
          accessible := some true, raw := some (pyStrip output) }

/-- The log-tail command of `_check_backup_log`
(src/monitors/backup.py:187). -/
def backupLogCommand : String :=
  "tail -100 /var/log/gitlab-backup.log 2>/dev/null | grep -i \x27error\\|fail\x27 | tail -5"

/-- `BackupMonitor._check_backup_log` (src/monitors/backup.py:185-195).
Raises propagate to `check`'s handler. -/
def _check_backup_log (ssh : String → Except PyErr String) :
    Except PyErr LogStatus :=
  match ssh backupLogCommand with
  | Except.error e => Except.error e
  | Except.ok output =>
    let errors : List String :=
      if pyStrip output ≠ "" then pySplitLines (pyStrip output) else []
    Except.ok
      { recent_errors :=
          if errors ≠ [] ∧ errors.getD 0 "" ≠ "" then some errors else none
        error_count := (errors.filter (fun e => e ≠ "")).length }

/-- The staleness test inside `check`'s try block
(src/monitors/backup.py:56-60): a missing `age_hours` key defaults to
999 for the comparison, but building the issue message then subscripts
the missing key, raising a `KeyError`. -/
def stalenessIssues (lb : LocalBackup) (settings : BackupSettingsModel) :
    Except PyErr (List String) :=
  if lb.age_hours.getD 999 > (settings.max_backup_age_hours : Rat) then
    match lb.age_hours with
    | none => Except.error (PyErr.keyError "age_hours")
    | some a =>
      Except.ok ["Local backup is " ++ fmtFloat1 a ++ " hours old (threshold: "
        ++ toString settings.max_backup_age_hours ++ "h)"]
  else
    Except.ok []

/-- The `except Exception` clause of `check`
(src/monitors/backup.py:85-88): issues accumulated before the raise are
kept, a check-error issue is appended, and the error is recorded into
`details`. -/
def checkCatch (issues : List String) (details : BackupDetails) (e : PyErr) :
    List String × BackupDetails :=
  (issues ++ ["Backup check error: " ++ pyStr e],
   { details with errorD := some (pyStr e) })

/-- The try/except block of `BackupMonitor.check`
(src/monitors/backup.py:51-88), producing the issue list, the details
map and the value of the `local_backup` local (used afterwards by the
OK-branch message).  Prometheus gauge updates are observations only and
are not modelled. -/
def checkBody (ssh : String → Except PyErr String)
    (settings : BackupSettingsModel) (now : Int) :
    List String × BackupDetails × Option LocalBackup :=
  match _check_local_backup ssh settings.local_backup_path now with
  | Except.error e =>
    let c := checkCatch [] emptyDetails e
    (c.1, c.2, none)
  | Except.ok local_backup =>
    let details1 := { emptyDetails with localD := some local_backup }
    match stalenessIssues local_backup settings with
    | Except.error e =>
      let c := checkCatch [] details1 e
      (c.1, c.2, some local_backup)
    | Except.ok issues1 =>
      let borgStage : List String × BackupDetails :=
        if settings.borg_repo ≠ "" then
          let borg_status := _check_borg_backup ssh
          let d := { details1 with borgD := some borg_status }
          match borg_status.error with
          | some err => (issues1 ++ ["Borg check failed: " ++ err], d)
          | none => (issues1, d)
        else
          (issues1, details1)
      match _check_backup_log ssh with
      | Except.error e =>
        let c := checkCatch borgStage.1 borgStage.2 e
        (c.1, c.2, some local_backup)
      | Except.ok log_status =>
        let details3 := { borgStage.2 with logD := some log_status }
        match log_status.recent_errors with
        | some errs =>
          (borgStage.1 ++ ["Backup log errors: " ++ pyReprList errs],
           details3, some local_backup)
        | none => (borgStage.1, details3, some local_backup)

/-- `BackupMonitor.check` (src/monitors/backup.py:45-115): run the try
block, then derive the verdict.  A non-empty issue list yields CRITICAL
plus exactly one critical alert.  The OK branch interpolates
`local_backup.get("age_hours", "?")` with a `:.1f` format spec, which
raises a `ValueError` when the key is absent (the string `"?"` does not
support the float format code); this raise happens outside the
try/except and so escapes `check`. -/
def check (ssh : String → Except PyErr String)
    (settings : BackupSettingsModel) (now : Int) :
    Except PyErr (CheckResult BackupDetails × Option Alert) :=
  let body := checkBody ssh settings now
  let issues := body.1
  let details := body.2.1
  if issues ≠ [] then
    let message := String.intercalate "; " issues
    Except.ok
      ({ status := Status.critical, message := message, details := details },
       some { severity := "critical", title := "GitLab Backup Alert"
              message := message })
  else
    match body.2.2 with
    | none =>
      -- unreachable: an unassigned `local_backup` local would be an
      -- UnboundLocalError, but every path leaving it unassigned
      -- produces a non-empty issue list
      Except.error (PyErr.valueError "local variable referenced before assignment")
    | some local_backup =>
      match local_backup.age_hours with
      | some a =>
        Except.ok
          ({ status := Status.ok
             message := "Backups healthy (local: " ++ fmtFloat1 a ++ "h old)"
             details := details },
           none)
      | none =>
        Except.error (PyErr.valueError
          "Unknown format code \x27f\x27 for object of type \x27str\x27")

/-! # Theorems -/

/-! ## C10 — consecutive-failure counter -/

/-- The counter recurrence, seen from the end of the sequence. -/
theorem trailingCriticalRun_snoc {Details : Type}
    (rs : List (CheckResult Details)) (r : CheckResult Details) :
    trailingCriticalRun (rs ++ [r])
      = if r.status = Status.critical then trailingCriticalRun rs + 1 else 0 := by
  simp only [trailingCriticalRun, List.reverse_append, List.reverse_singleton,
    List.singleton_append, List.takeWhile_cons]
  by_cases h : r.status = Status.critical
  · simp [h]
  · simp [h]

/-- Folding `record_result` from a fresh monitor computes the trailing
CRITICAL run length. -/
theorem foldl_record_result_eq_trailing {Details : Type}
    (rs : List (CheckResult Details)) :
    (rs.foldl record_result (MonitorState.init Details)).consecutive_failures
      = trailingCriticalRun rs := by
  induction rs using List.reverseRecOn with
  | nil => rfl
  | append_singleton rs r ih =>
    rw [List.foldl_append, trailingCriticalRun_snoc]
    simp only [List.foldl_cons, List.foldl_nil, record_result]
    by_cases h : r.status = Status.critical
    · simp [h, ih]
    · simp [h]

/-- C10: `record_result` bumps the consecutive-failure counter exactly
on a CRITICAL result and resets it to 0 on any other status, so after
any sequence recorded from a fresh monitor the counter equals the
length of the trailing run of CRITICAL results. -/
theorem C10_consecutive_failures {Details : Type}
    (s : MonitorState Details) (r : CheckResult Details)
    (rs : List (CheckResult Details)) :
    ((record_result s r).consecutive_failures
        = if r.status = Status.critical then s.consecutive_failures + 1 else 0)
    ∧ (rs.foldl record_result (MonitorState.init Details)).consecutive_failures
        = trailingCriticalRun rs :=
  ⟨rfl, foldl_record_result_eq_trailing rs⟩

/-! ## C1 — `RestoreTestResult.success` vs errors and verification -/

/-- `p` is a prefix of `s`, computed on the character lists (a
kernel-reducible reformulation of string prefixing, used to recognise
`"Cleanup failed: …"` messages). -/
def strPrefixOf (p s : String) : Bool :=
  p.data.isPrefixOf s.data

/-- A character list starts with anything it is appended onto. -/
theorem listStartsWith_append (l m : List Char) :
    l.isPrefixOf (l ++ m) = true := by
  induction l with
  | nil => simp [List.isPrefixOf]
  | cons c cs ih => simp [List.isPrefixOf, ih]

/-- A string prefixes anything it is appended in front of. -/
theorem strPrefixOf_append (p s : String) : strPrefixOf p (p ++ s) = true := by
  simp only [strPrefixOf, String.data_append]
  exact listStartsWith_append _ _

/-- A run in which every workflow step succeeds, every verification
check passes, and only the cleanup (server destruction) fails. -/
def envCleanupFail : RestoreEnv :=
  { provision := Except.ok { id := 42, ip := "192.0.2.10" }
    install := Except.ok ()
    restore := Except.ok ()
    verify := Except.ok [("health_check", true), ("services", true)]
    destroy := Except.error "rate limit exceeded" }

/-- C1 counterexample: with all verifications passing and only the
server-destruction cleanup failing, `run_restore_test` returns
`success = true` together with a non-empty error list, so success is
not equivalent to `errors == [] ∧ all verification values true`. -/
theorem C1_counterexample :
    ¬ ((run_restore_test envCleanupFail).success = true ↔
        ((run_restore_test envCleanupFail).errors = []
          ∧ (run_restore_test envCleanupFail).verification_results.all
              (fun p => p.2) = true)) := by
  decide

/-- C1 (amended): `success` is true iff the verification step completed
(`"verification_completed"` was recorded) with every verification value
true; a failing cleanup appends `"Cleanup failed: …"` to `errors`
without affecting `success`, so when `success` is true every recorded
error (if any) is such a cleanup failure. -/
theorem C1_amended_success_iff (env : RestoreEnv) :
    (run_restore_test env).success = true ↔
      ("verification_completed" ∈ (run_restore_test env).steps_completed
        ∧ (run_restore_test env).verification_results.all (fun p => p.2) = true
        ∧ ∀ e ∈ (run_restore_test env).errors,
            strPrefixOf "Cleanup failed: " e = true) := by
  obtain ⟨prov, inst, rest, ver, dest⟩ := env
  rcases prov with e | srv
  · simp [run_restore_test]
  · rcases inst with e | _
    · rcases dest with e2 | _ <;> simp [run_restore_test]
    · rcases rest with e | _
      · rcases dest with e2 | _ <;> simp [run_restore_test]
      · rcases ver with e | v
        · rcases dest with e2 | _ <;> simp [run_restore_test]
        · rcases dest with e2 | _ <;>
            simp [run_restore_test, strPrefixOf_append]

/-! ## C2 — unconditional destroy -/

/-- A run in which provisioning itself raises, so the `server` local is
never assigned and the cleanup block has nothing to destroy. -/
def envProvisionFail : RestoreEnv :=
  { provision := Except.error "Hetzner action failed: resource unavailable"
    install := Except.ok ()
    restore := Except.ok ()
    verify := Except.ok []
    destroy := Except.ok () }

/-- C2 counterexample: when provisioning raises, the result records
neither `"server_destroyed"` nor any cleanup-failure error — destroy is
skipped because no server object exists. -/
theorem C2_counterexample :
    ¬ ("server_destroyed" ∈ (run_restore_test envProvisionFail).steps_completed
        ∨ ∃ e ∈ (run_restore_test envProvisionFail).errors,
            strPrefixOf "Cleanup failed: " e = true) := by
  decide

/-- C2 (amended): once provisioning has returned a server, destruction
is attempted regardless of how the later steps fare — the result always
records `"server_destroyed"` or a cleanup-failure error; in particular,
if `_install_gitlab` raises `RuntimeError("Installation failed")` the
result has `success = false` and `"Installation failed"` among its
errors, with destruction still attempted and a destruction failure
appended rather than raised. -/
theorem C2_amended_destroy_after_provision (env : RestoreEnv) (srv : Server)
    (h : env.provision = Except.ok srv) :
    ("server_destroyed" ∈ (run_restore_test env).steps_completed
      ∨ ∃ e ∈ (run_restore_test env).errors,
          strPrefixOf "Cleanup failed: " e = true)
    ∧ (env.install = Except.error "Installation failed" →
        (run_restore_test env).success = false
        ∧ "Installation failed" ∈ (run_restore_test env).errors) := by
  obtain ⟨prov, inst, rest, ver, dest⟩ := env
  simp only at h
  subst h
  refine ⟨?_, ?_⟩
  · rcases inst with e | u <;> rcases rest with e3 | u3 <;> rcases ver with e4 | v <;>
      rcases dest with e2 | u2 <;> simp [run_restore_test, strPrefixOf_append]
  · intro hinst
    simp only at hinst
    subst hinst
    rcases dest with e2 | u2 <;> simp [run_restore_test]

/-- A run in which GitLab installation raises
`RuntimeError("Installation failed")` and cleanup succeeds. -/
def envInstallFail : RestoreEnv :=
  { provision := Except.ok { id := 7, ip := "198.51.100.3" }
    install := Except.error "Installation failed"
    restore := Except.ok ()
    verify := Except.ok []
    destroy := Except.ok () }

/-- C2 witness: the amended claim evaluated on the concrete
installation-failure run. -/
theorem C2_amended_witness :
    ("server_destroyed" ∈ (run_restore_test envInstallFail).steps_completed
      ∨ ∃ e ∈ (run_restore_test envInstallFail).errors,
          strPrefixOf "Cleanup failed: " e = true)
    ∧ (run_restore_test envInstallFail).success = false
    ∧ "Installation failed" ∈ (run_restore_test envInstallFail).errors :=
  ⟨(C2_amended_destroy_after_provision envInstallFail ⟨7, "198.51.100.3"⟩ rfl).1,
   ((C2_amended_destroy_after_provision envInstallFail ⟨7, "198.51.100.3"⟩ rfl).2 rfl).1,
   ((C2_amended_destroy_after_provision envInstallFail ⟨7, "198.51.100.3"⟩ rfl).2 rfl).2⟩

/-! ## C4 — in-flight precondition -/

/-- C4: whenever the stored recovery state is in flight (no
`completed_at`), `initiate_recovery` raises
`RuntimeError("Recovery already in progress")` regardless of
`auto_approve`, synchronously and with no side effects: no alert is
sent and the stored state is untouched. -/
theorem C4_in_flight_raises (cur : Option RecoveryState) (st : RecoveryState)
    (reason : String) (auto_approve : Bool) (env : RecoveryEnv)
    (hcur : cur = some st) (hc : st.completed_at = none) :
    initiate_recovery cur reason auto_approve env =
      { result := Except.error (PyErr.runtimeError "Recovery already in progress")
        alerts := []
        current_recovery := cur } := by
  subst hcur
  simp [initiate_recovery, inFlight, RecoveryState.is_complete, hc]

/-- A paused recovery state: fresh except for being started. -/
def pausedState : RecoveryState :=
  { started_at := 50, completed_at := none, current_step := none
    completed_steps := [], failed_step := none, error := none
    new_server_id := none, new_server_ip := none }

/-- A fully healthy auto-approve environment (every step body returns). -/
def envAllOk : RecoveryEnv :=
  { provision := Except.ok { id := 9, ip := "203.0.113.5" }
    attach_volumes := Except.ok ()
    install_gitlab := Except.ok ()
    restore_config := Except.ok ()
    restore_backup := Except.ok ()
    reconfigure := Except.ok ()
    verify := Except.ok ()
    update_dns := Except.ok ()
    clock := 100 }

/-- C4 witness: a second initiation against a concrete paused state. -/
theorem C4_witness :
    initiate_recovery (some pausedState) "second attempt" true envAllOk =
      { result := Except.error (PyErr.runtimeError "Recovery already in progress")
        alerts := []
        current_recovery := some pausedState } :=
  C4_in_flight_raises (some pausedState) pausedState "second attempt" true
    envAllOk rfl rfl

/-! ## C5 — approval gate -/

/-- C5: with `auto_approve = False` and no recovery in flight,
`initiate_recovery` returns a state with `current_step = None` and no
completed steps, sends exactly the two alerts (initiation notice then
approval request), and makes no provisioning call — the outcome is
independent of the provisioning environment. -/
theorem C5_approval_gate (cur : Option RecoveryState) (reason : String)
    (env : RecoveryEnv) (hcur : inFlight cur = false) :
    ∃ st, (initiate_recovery cur reason false env).result = Except.ok st
      ∧ st.current_step = none
      ∧ st.completed_steps = []
      ∧ (initiate_recovery cur reason false env).alerts
          = [initiationAlert reason, approvalAlert]
      ∧ (initiate_recovery cur reason false env).alerts.length = 2
      ∧ ∀ p : Except String Server,
          initiate_recovery cur reason false { env with provision := p }
            = initiate_recovery cur reason false env := by
  refine ⟨RecoveryState.fresh env.clock, ?_, rfl, rfl, ?_, ?_, ?_⟩ <;>
    simp [initiate_recovery, hcur]

/-- C5 witness: the gate evaluated on a fresh manager with the concrete
healthy environment. -/
theorem C5_witness :
    ∃ st, (initiate_recovery none "disk failure" false envAllOk).result
        = Except.ok st
      ∧ st.current_step = none
      ∧ st.completed_steps = []
      ∧ (initiate_recovery none "disk failure" false envAllOk).alerts
          = [initiationAlert "disk failure", approvalAlert]
      ∧ (initiate_recovery none "disk failure" false envAllOk).alerts.length = 2
      ∧ ∀ p : Except String Server,
          initiate_recovery none "disk failure" false
              { envAllOk with provision := p }
            = initiate_recovery none "disk failure" false envAllOk :=
  C5_approval_gate none "disk failure" envAllOk rfl

/-! ## C9 — a paused recovery blocks the manager forever -/

/-- A sequence of further `initiate_recovery` calls against the manager,
threading `_current_recovery` and collecting each call's outcome. -/
def runCalls : Option RecoveryState → List (String × Bool × RecoveryEnv) →
    Option RecoveryState × List (Except PyErr RecoveryState)
  | cur, [] => (cur, [])
  | cur, (reason, auto, env) :: restCalls =>
    let r := initiate_recovery cur reason auto env
    let k := runCalls r.current_recovery restCalls
    (k.1, r.result :: k.2)

/-- Any call sequence against a manager whose stored state is in flight
only ever raises, and never changes the stored state. -/
theorem runCalls_in_flight (st : RecoveryState) (h : st.completed_at = none)
    (calls : List (String × Bool × RecoveryEnv)) :
    (runCalls (some st) calls).1 = some st
    ∧ ∀ r ∈ (runCalls (some st) calls).2,
        r = Except.error (PyErr.runtimeError "Recovery already in progress") := by
  induction calls with
  | nil => exact ⟨rfl, by intro r hr; cases hr⟩
  | cons c restCalls ih =>
    obtain ⟨reason, auto, env⟩ := c
    have hf : inFlight (some st) = true := by
      simp [inFlight, RecoveryState.is_complete, h]
    simp only [runCalls, initiate_recovery, hf, if_true]
    refine ⟨ih.1, ?_⟩
    intro r hr
    rcases List.mem_cons.mp hr with hr | hr
    · exact hr
    · exact ih.2 r hr

/-- C9: a non-auto-approved `initiate_recovery` stores a paused state
whose `completed_at` is `None`; no manager operation ever completes or
clears it, so every subsequent `initiate_recovery` call — with any
arguments, over any call sequence — raises
`RuntimeError("Recovery already in progress")` and leaves the stored
state unchanged. -/
theorem C9_paused_blocks_forever (cur0 : Option RecoveryState)
    (reason : String) (env : RecoveryEnv) (h : inFlight cur0 = false)
    (calls : List (String × Bool × RecoveryEnv)) :
    ∃ st0, (initiate_recovery cur0 reason false env).result = Except.ok st0
      ∧ (initiate_recovery cur0 reason false env).current_recovery = some st0
      ∧ st0.completed_at = none
      ∧ (runCalls (some st0) calls).1 = some st0
      ∧ ∀ r ∈ (runCalls (some st0) calls).2,
          r = Except.error (PyErr.runtimeError "Recovery already in progress") := by
  refine ⟨RecoveryState.fresh env.clock, ?_, ?_, rfl, ?_⟩
  · simp [initiate_recovery, h]
  · simp [initiate_recovery, h]
  · exact runCalls_in_flight _ rfl calls

/-- C9 witness: a paused request on a fresh manager followed by two
further attempts (one auto-approved, one not), both refused. -/
theorem C9_witness :
    ∃ st0, (initiate_recovery none "primary down" false envAllOk).result
        = Except.ok st0
      ∧ (initiate_recovery none "primary down" false envAllOk).current_recovery
          = some st0
      ∧ st0.completed_at = none
      ∧ (runCalls (some st0)
          [("retry", true, envAllOk), ("retry again", false, envAllOk)]).1
          = some st0
      ∧ ∀ r ∈ (runCalls (some st0)
          [("retry", true, envAllOk), ("retry again", false, envAllOk)]).2,
          r = Except.error (PyErr.runtimeError "Recovery already in progress") :=
  C9_paused_blocks_forever none "primary down" envAllOk rfl
    [("retry", true, envAllOk), ("retry again", false, envAllOk)]

/-! ## C3 — failure at step N -/

/-- Successful steps never emit the failure alert (only step 8 emits an
alert at all, and it is the DNS warning). -/
theorem stepSuccessAlerts_no_failed (s : RecoveryStep) (st : RecoveryState) :
    (stepSuccessAlerts s st).filter
      (fun a => decide (a.title = "Disaster Recovery FAILED")) = [] := by
  cases s <;> simp [stepSuccessAlerts]

/-- `stepSuccessUpdate` only touches the server-address fields. -/
theorem stepSuccessUpdate_completed_steps (env : RecoveryEnv)
    (s : RecoveryStep) (st : RecoveryState) :
    (stepSuccessUpdate env s st).completed_steps = st.completed_steps := by
  unfold stepSuccessUpdate
  cases s <;> cases env.provision <;> rfl

/-- A completed step appends exactly itself to `completed_steps`. -/
theorem stepAdvance_completed_steps (env : RecoveryEnv) (s : RecoveryStep)
    (st : RecoveryState) :
    (stepAdvance env s st).completed_steps = st.completed_steps ++ [s] := by
  simp [stepAdvance, stepSuccessUpdate_completed_steps]

/-- Running the loop on `done ++ step :: restSteps` where every step of
`done` succeeds and `step` raises: the first raise ends the loop with
exactly the `done` steps appended, the failure recorded, the completion
stamp set, and the failure alert as the only failure-titled alert. -/
theorem runStepsFrom_fail (env : RecoveryEnv)
    (done restSteps : List RecoveryStep) (step : RecoveryStep) (e : String)
    (hfail : stepBody env step = Except.error e) :
    ∀ st : RecoveryState, (∀ s ∈ done, stepBody env s = Except.ok ()) →
      (runStepsFrom env (done ++ step :: restSteps) st).1.completed_steps
          = st.completed_steps ++ done
      ∧ (runStepsFrom env (done ++ step :: restSteps) st).1.failed_step
          = some step
      ∧ (runStepsFrom env (done ++ step :: restSteps) st).1.error = some e
      ∧ (runStepsFrom env (done ++ step :: restSteps) st).1.completed_at
          = some env.clock
      ∧ (runStepsFrom env (done ++ step :: restSteps) st).2.filter
          (fun a => decide (a.title = "Disaster Recovery FAILED"))
          = [recoveryFailedAlert step e] := by
  induction done with
  | nil =>
    intro st _
    refine ⟨?_, ?_, ?_, ?_, ?_⟩ <;>
      simp [runStepsFrom, hfail, stepFail, recoveryFailedAlert]
  | cons s ds ih =>
    intro st hdone
    have hs : stepBody env s = Except.ok () := hdone s (List.mem_cons_self _ _)
    have hds : ∀ x ∈ ds, stepBody env x = Except.ok () :=
      fun x hx => hdone x (List.mem_cons_of_mem _ hx)
    obtain ⟨h1, h2, h3, h4, h5⟩ := ih (stepAdvance env s st) hds
    simp only [List.cons_append, runStepsFrom, hs, List.append_eq]
    refine ⟨?_, h2, h3, h4, ?_⟩
    · rw [h1, stepAdvance_completed_steps]
      simp
    · rw [List.filter_append, h5, stepSuccessAlerts_no_failed, List.nil_append]

/-- C3: in an auto-approved recovery where the first N-1 step bodies
succeed and step N raises, the returned state's `completed_steps` is
exactly the first N-1 steps of the `RecoveryStep` order, `failed_step`
is step N, `error` holds the exception message, `completed_at` is
stamped, and among all alerts sent exactly one bears the failure title —
it is CRITICAL and its message names the failed step.  (The initiation
alert is also CRITICAL but names no step; steps after N are never
consulted, as the conclusion is independent of `restSteps`.) -/
theorem C3_step_failure (cur : Option RecoveryState) (env : RecoveryEnv)
    (reason : String) (done restSteps : List RecoveryStep)
    (step : RecoveryStep) (e : String)
    (hcur : inFlight cur = false)
    (horder : recoveryOrder = done ++ step :: restSteps)
    (hdone : ∀ s ∈ done, stepBody env s = Except.ok ())
    (hfail : stepBody env step = Except.error e) :
    ∃ st, (initiate_recovery cur reason true env).result = Except.ok st
      ∧ st.completed_steps = done
      ∧ done = recoveryOrder.take done.length
      ∧ st.failed_step = some step
      ∧ st.error = some e
      ∧ st.error ≠ none
      ∧ st.completed_at.isSome = true
      ∧ (initiate_recovery cur reason true env).alerts.filter
          (fun a => decide (a.title = "Disaster Recovery FAILED"))
          = [recoveryFailedAlert step e]
      ∧ (recoveryFailedAlert step e).severity = "critical"
      ∧ (recoveryFailedAlert step e).message
          = "Recovery failed at step: " ++ step.value ++ "\nError: " ++ e := by
  obtain ⟨h1, h2, h3, h4, h5⟩ :=
    runStepsFrom_fail env done restSteps step e hfail
      (RecoveryState.fresh env.clock) hdone
  refine ⟨(runStepsFrom env (done ++ step :: restSteps)
      (RecoveryState.fresh env.clock)).1, ?_, ?_, ?_, h2, h3, ?_, ?_, ?_, rfl, rfl⟩
  · simp [initiate_recovery, hcur, horder]
  · rw [h1]
    rfl
  · rw [horder]
    exact (List.take_left done (step :: restSteps)).symm
  · rw [h3]
    simp
  · rw [h4]
    rfl
  · have halerts : (initiate_recovery cur reason true env).alerts
        = initiationAlert reason
          :: (runStepsFrom env (done ++ step :: restSteps)
                (RecoveryState.fresh env.clock)).2 := by
      simp [initiate_recovery, hcur, horder]
    rw [halerts, List.filter_cons]
    simp only [h5]
    simp [initiationAlert]

/-- The healthy environment except that the GitLab installation step
raises `RuntimeError("Installation failed")`. -/
def envRecInstallFail : RecoveryEnv :=
  { envAllOk with install_gitlab := Except.error "Installation failed" }

/-- C3 witness: the failure contract evaluated with a concrete raise at
step 3 (`install_gitlab`). -/
theorem C3_witness :
    ∃ st, (initiate_recovery none "primary down" true envRecInstallFail).result
        = Except.ok st
      ∧ st.completed_steps
          = [RecoveryStep.provision_server, RecoveryStep.attach_volumes]
      ∧ [RecoveryStep.provision_server, RecoveryStep.attach_volumes]
          = recoveryOrder.take 2
      ∧ st.failed_step = some RecoveryStep.install_gitlab
      ∧ st.error = some "Installation failed"
      ∧ st.error ≠ none
      ∧ st.completed_at.isSome = true
      ∧ (initiate_recovery none "primary down" true envRecInstallFail).alerts.filter
          (fun a => decide (a.title = "Disaster Recovery FAILED"))
          = [recoveryFailedAlert RecoveryStep.install_gitlab "Installation failed"]
      ∧ (recoveryFailedAlert RecoveryStep.install_gitlab
          "Installation failed").severity = "critical"
      ∧ (recoveryFailedAlert RecoveryStep.install_gitlab
          "Installation failed").message
          = "Recovery failed at step: " ++ RecoveryStep.install_gitlab.value
            ++ "\nError: " ++ "Installation failed" :=
  C3_step_failure none envRecInstallFail "primary down"
    [RecoveryStep.provision_server, RecoveryStep.attach_volumes]
    [RecoveryStep.restore_config, RecoveryStep.restore_backup,
     RecoveryStep.reconfigure, RecoveryStep.verify, RecoveryStep.update_dns]
    RecoveryStep.install_gitlab "Installation failed" rfl rfl
    (by intro s hs; fin_cases hs <;> rfl) rfl

/-! ## C6 — action polling -/

/-- C6: `_wait_for_action` returns immediately (zero sleeps) when the
first polled status is `"success"`; raises at once with the provider's
error detail when the first polled status is `"error"`; and, when the
status stays `"running"`, raises the timeout error once wall-clock
elapsed exceeds the timeout — concretely, a 1-second timeout with a
perpetually-running action times out at the second poll. -/
theorem C6_wait_for_action (poll : Nat → ActionPoll) (timeout : Nat)
    (d : String) :
    (poll 0 = ActionPoll.success →
      waitForAction poll timeout = WaitOutcome.ok 0)
    ∧ (poll 0 = ActionPoll.error d →
      waitForAction poll timeout
        = WaitOutcome.actionFailed ("Hetzner action failed: " ++ d))
    ∧ ((∀ n, poll n = ActionPoll.running) →
      waitForAction poll 1 = WaitOutcome.timedOut "Action timed out after 1s") := by
  refine ⟨?_, ?_, ?_⟩
  · intro h
    unfold waitForAction waitForActionGo
    rw [h]
  · intro h
    unfold waitForAction waitForActionGo
    rw [h]
  · intro h
    have e1 : waitForActionGo poll 1 1
        = WaitOutcome.timedOut "Action timed out after 1s" := by
      unfold waitForActionGo
      rw [h 1]
      norm_num
      rfl
    have e0 : waitForActionGo poll 1 0 = waitForActionGo poll 1 1 := by
      conv_lhs => unfold waitForActionGo
      rw [h 0]
      norm_num
    rw [waitForAction, e0, e1]

/-- C6 witness: the three scenarios at concrete poll streams. -/
theorem C6_witness :
    waitForAction (fun _ => ActionPoll.success) 300 = WaitOutcome.ok 0
    ∧ waitForAction (fun _ => ActionPoll.error "server limit reached") 300
        = WaitOutcome.actionFailed "Hetzner action failed: server limit reached"
    ∧ waitForAction (fun _ => ActionPoll.running) 1
        = WaitOutcome.timedOut "Action timed out after 1s" :=
  ⟨(C6_wait_for_action (fun _ => ActionPoll.success) 300 "x").1 rfl,
   (C6_wait_for_action (fun _ => ActionPoll.error "server limit reached") 300
      "server limit reached").2.1 rfl,
   (C6_wait_for_action (fun _ => ActionPoll.running) 1 "x").2.2 (fun _ => rfl)⟩

/-! ## C7 — backup-not-found verdict -/

/-- The dict `_check_local_backup` returns when no backup file is
listed. -/
def noFileLocalBackup : LocalBackup :=
  { file_exists := false, error := some "No backup files found"
    filename := none, size_gb := none, timestamp := none, age_hours := none }

/-- A remote session where every command returns empty output: no
backup file listed, empty log tail. -/
def sshAllEmpty : String → Except PyErr String := fun _ => Except.ok ""

/-- Backup settings whose staleness threshold reaches the 999-hour
sentinel (`max_backup_age_hours` is an unbounded int field). -/
def settingsThreshold999 : BackupSettingsModel :=
  { max_backup_age_hours := 999, borg_repo := ""
    local_backup_path := "/var/opt/gitlab/backups" }

/-- The default backup settings (threshold 4 hours, no Borg repo
configured here). -/
def settingsThreshold4 : BackupSettingsModel :=
  { max_backup_age_hours := 4, borg_repo := ""
    local_backup_path := "/var/opt/gitlab/backups" }

/-- C7 counterexample: with no local backup file and a configured
threshold of 999 hours, the sentinel comparison `999 > threshold` does
NOT fire; with no other issues the OK branch is reached, whose message
interpolates the missing `age_hours` key through a `:.1f` format spec
and raises a `ValueError` — `check` returns no `CheckResult` at all,
CRITICAL or otherwise. -/
theorem C7_counterexample :
    check sshAllEmpty settingsThreshold999 0
      = Except.error (PyErr.valueError
          "Unknown format code \x27f\x27 for object of type \x27str\x27")
    ∧ ¬ ∃ r alert, check sshAllEmpty settingsThreshold999 0
        = Except.ok (r, alert) := by
  have h : check sshAllEmpty settingsThreshold999 0
      = Except.error (PyErr.valueError
          "Unknown format code \x27f\x27 for object of type \x27str\x27") := by
    rfl
  refine ⟨h, ?_⟩
  rintro ⟨r, a, hra⟩
  rw [h] at hra
  cases hra

/-- C7 (amended): when no local backup file is present and the
configured threshold is below the 999-hour sentinel, the sentinel makes
the staleness comparison fire; building the staleness message then
raises a `KeyError` on the absent `age_hours` key, which the check
handler folds into the issue list — so `check` returns a CRITICAL
result (never OK) with `details["local"]["exists"] == False` and sends
exactly one CRITICAL alert.  With a threshold at or above the sentinel
the comparison does not fire and `check` instead raises out of the OK
branch (see the counterexample). -/
theorem C7_amended_no_file_critical (ssh : String → Except PyErr String)
    (settings : BackupSettingsModel) (now : Int) (out : String)
    (hls : ssh (lsCommand settings.local_backup_path) = Except.ok out)
    (hempty : pyStrip out = "")
    (hthr : (settings.max_backup_age_hours : Rat) < 999) :
    ∃ r alert, check ssh settings now = Except.ok (r, some alert)
      ∧ r.status = Status.critical
      ∧ (∃ lb, r.details.localD = some lb ∧ lb.file_exists = false)
      ∧ alert.severity = "critical" := by
  have hlocal : _check_local_backup ssh settings.local_backup_path now
      = Except.ok noFileLocalBackup := by
    unfold _check_local_backup
    rw [hls]
    simp [hempty, noFileLocalBackup]
  have hstale : stalenessIssues noFileLocalBackup settings
      = Except.error (PyErr.keyError "age_hours") := by
    unfold stalenessIssues
    rw [if_pos]
    · rfl
    · simpa [noFileLocalBackup, gt_iff_lt] using hthr
  have hbody : checkBody ssh settings now
      = (["Backup check error: " ++ pyStr (PyErr.keyError "age_hours")],
         { emptyDetails with
            localD := some noFileLocalBackup
            errorD := some (pyStr (PyErr.keyError "age_hours")) },
         some noFileLocalBackup) := by
    unfold checkBody
    rw [hlocal]
    simp only []
    rw [hstale]
    rfl
  have hcheck : check ssh settings now
      = Except.ok
          ({ status := Status.critical
             message := String.intercalate "; "
               ["Backup check error: " ++ pyStr (PyErr.keyError "age_hours")]
             details := { emptyDetails with
               localD := some noFileLocalBackup
               errorD := some (pyStr (PyErr.keyError "age_hours")) } },
           some { severity := "critical"
                  title := "GitLab Backup Alert"
                  message := String.intercalate "; "
                    ["Backup check error: "
                      ++ pyStr (PyErr.keyError "age_hours")] }) := by
    unfold check
    rw [hbody]
    rfl
  exact ⟨_, _, hcheck, rfl, ⟨noFileLocalBackup, rfl, rfl⟩, rfl⟩

/-- C7 witness: the amended claim at the default 4-hour threshold with
empty remote output. -/
theorem C7_witness :
    ∃ r alert, check sshAllEmpty settingsThreshold4 0 = Except.ok (r, some alert)
      ∧ r.status = Status.critical
      ∧ (∃ lb, r.details.localD = some lb ∧ lb.file_exists = false)
      ∧ alert.severity = "critical" :=
  C7_amended_no_file_critical sshAllEmpty settingsThreshold4 0 "" rfl rfl
    (by norm_num [settingsThreshold4])

/-! ## C8 — remote command execution -/

/-- C8: `run_command` returns the captured stdout whatever the remote
exit status — a session in hand, or an establishable one, never raises
on a non-zero exit — and the missing-credential `FileNotFoundError`
arises exactly when a new session must be established while the
configured private-key file does not exist. -/
theorem C8_run_command (env : SSHEnv) (st : SSHState) (command : String) :
    (st.connected = true →
      _run_command_sync env st command
        = Except.ok ((env.exec command).stdout, st))
    ∧ (st.connected = false → env.keyFileExists = true →
        env.connectError = none →
      _run_command_sync env st command
        = Except.ok ((env.exec command).stdout, { connected := true }))
    ∧ ((∃ m, _run_command_sync env st command
          = Except.error (PyErr.fileNotFoundError m))
        ↔ (st.connected = false ∧ env.keyFileExists = false)) := by
  obtain ⟨c⟩ := st
  refine ⟨?_, ?_, ?_⟩
  · intro h
    simp only at h
    subst h
    rfl
  · intro h1 h2 h3
    simp only at h1
    subst h1
    simp [_run_command_sync, _get_client, h2, h3]
  · cases c
    · cases hk : env.keyFileExists
      · simp [_run_command_sync, _get_client, hk]
      · cases hc : env.connectError <;>
          simp [_run_command_sync, _get_client, hk, hc]
    · simp [_run_command_sync, _get_client]

/-- A live session environment whose command exits non-zero. -/
def sshEnvLive : SSHEnv :=
  { keyFileExists := true
    keyPath := "/root/.ssh/id_ed25519"
    connectError := none
    exec := fun _ =>
      { exit_status := 1, stdout := "run: gitlab-workhorse", stderr := "boom" } }

/-- An environment whose configured private-key file is missing. -/
def sshEnvNoKey : SSHEnv :=
  { keyFileExists := false
    keyPath := "/root/.ssh/id_ed25519"
    connectError := none
    exec := fun _ => { exit_status := 0, stdout := "", stderr := "" } }

/-- C8 witness: stdout returned despite exit status 1, both on a live
session and on a fresh connect; `FileNotFoundError` with the key file
absent. -/
theorem C8_witness :
    _run_command_sync sshEnvLive { connected := true } "gitlab-ctl status"
      = Except.ok ("run: gitlab-workhorse", { connected := true })
    ∧ _run_command_sync sshEnvLive { connected := false } "gitlab-ctl status"
      = Except.ok ("run: gitlab-workhorse", { connected := true })
    ∧ ∃ m, _run_command_sync sshEnvNoKey { connected := false } "ls"
        = Except.error (PyErr.fileNotFoundError m) :=
  ⟨(C8_run_command sshEnvLive ⟨true⟩ "gitlab-ctl status").1 rfl,
   (C8_run_command sshEnvLive ⟨false⟩ "gitlab-ctl status").2.1 rfl rfl rfl,
   (C8_run_command sshEnvNoKey ⟨false⟩ "ls").2.2.mpr ⟨rfl, rfl⟩⟩

end Botlab
